import Mathlib

/-!
Verification development for the zkRisk volatility / risk-lambda pipeline.

The definitions below are a shallow embedding of the Python sources
`src/fluence/infer.py` (class VolatilityInferenceService) and
`src/fluence/enhanced_ai.py` (class EnhancedVolatilityPredictor).
Python floats are modelled as exact rationals (ℚ); values produced through
square roots (numpy std, annualization) live in ℝ.  External effects
(the ONNX session, the random generator) are modelled as explicit oracle
parameters.
-/

set_option maxHeartbeats 1000000

/-- A price sample as stored in the per-symbol price history
(`price`, `confidence`, and a timestamp, modelled as an integer). -/
structure PriceSample where
  price : ℚ
  confidence : ℚ
  time : ℤ
deriving DecidableEq, Repr

/-- Mean of a list of rationals (`np.mean`); division by zero yields 0 in ℚ,
matching the guarded uses in the source (all call sites have length ≥ 1). -/
def listMean (xs : List ℚ) : ℚ := xs.sum / xs.length

/-- Population variance (`np.std(xs)**2`, numpy default ddof = 0):
mean of squared deviations from the mean. -/
def popVariance (xs : List ℚ) : ℚ :=
  ((xs.map (fun x => (x - listMean xs) ^ 2)).sum) / xs.length

/-- Embedding of `np.std` as used by both volatility calculators:
the square root of the population variance of the list. -/
noncomputable def np_std (xs : List ℚ) : ℝ :=
  Real.sqrt ((popVariance xs : ℚ) : ℝ)

/-- Python slice `l[-n:]`.  For `n ≥ 1` this keeps the last `n` elements
(or the whole list when it is shorter); Python's quirk `l[-0:] = l` is kept. -/
def pyTakeLast (n : ℕ) (l : List α) : List α :=
  if n = 0 then l else l.drop (l.length - n)

/-- infer.py, `VolatilityInferenceService.calculate_lambda` (lines 237-259):
normalize the volatility by 0.5 capped at 1, map linearly from
MAX_LAMBDA = 1.8 down to MIN_LAMBDA = 0.3, and clamp to that interval. -/
def calculate_lambda (volatility : ℚ) : ℚ :=
  let vol_normalized := min (volatility / 0.5) 1
  let lambda_value := 1.8 - vol_normalized * (1.8 - 0.3)
  max 0.3 (min lambda_value 1.8)

/-- enhanced_ai.py, `EnhancedVolatilityPredictor.calculate_lambda_coefficient`
(lines 300-317): `1 + base_rate + 2·v + 0.5·(min(v/0.3, 2) - 1)`,
clamped to [1.01, 3.0]. -/
def calculate_lambda_coefficient (volatility : ℚ) (base_rate : ℚ) : ℚ :=
  let risk_free_rate := base_rate
  let volatility_premium := volatility * 2.0
  let market_stress_factor := min (volatility / 0.3) 2.0
  let lambda_value := 1.0 + risk_free_rate + volatility_premium + (market_stress_factor - 1.0) * 0.5
  max 1.01 (min lambda_value 3.0)

/-- State of the inference backend (the ONNX session), an oracle:
absent (no model file), or configured and returning a scalar computed
from its input, or configured but raising on invocation. -/
inductive Backend (ι : Type) where
  | absent : Backend ι
  | ok (run : ι → ℚ) : Backend ι
  | raising : Backend ι

/-- infer.py, `VolatilityInferenceService.predict_volatility` (lines 205-235):
with a session, clamp the model scalar to [0.01, 1.0]; without one, use the
mean of the input data clamped the same way, or 0.15 when the input is
missing/empty; any exception yields 0.15. -/
def infer_predict_volatility (session : Backend (List ℚ)) (input_data : Option (List ℚ)) : ℚ :=
  match session with
  | .ok run =>
      match input_data with
      | some xs => max 0.01 (min (run xs) 1.0)
      | none => 0.15
  | .raising => 0.15
  | .absent =>
      match input_data with
      | some xs => if xs.length ≠ 0 then max 0.01 (min (listMean xs) 1.0) else 0.15
      | none => 0.15

/-- Simple returns as computed by infer.py lines 273-277, with no guard on the
previous price: `r_i = (p_i - p_{i-1}) / p_{i-1}` for consecutive prices. -/
def simpleReturns (prices : List ℚ) : List ℚ :=
  (prices.tail.zip prices).map (fun q => (q.1 - q.2) / q.2)

/-- Guarded returns as computed by enhanced_ai.py lines 153-158: a return is
produced only when the previous price is positive. -/
def guardedReturns (price_values : List ℚ) : List ℚ :=
  (price_values.tail.zip price_values).filterMap
    (fun q => if 0 < q.2 then some ((q.1 - q.2) / q.2) else none)

/-- infer.py, `VolatilityInferenceService.calculate_volatility_from_prices`
(lines 261-292): slice the last `price_window` prices, compute simple returns,
take `np.std`, annualize by `sqrt(24*365)`, and return the result UNCLAMPED.
Fewer than 2 prices or returns gives the 0.15 fallback; a zero previous price
raises ZeroDivisionError in Python, caught into the same 0.15 fallback. -/
noncomputable def calculate_volatility_from_prices
    (price_history : List PriceSample) (price_window : ℕ) : ℝ :=
  if price_history.length < 2 then 0.15
  else
    let recent_prices := pyTakeLast price_window (price_history.map (·.price))
    if recent_prices.length < 2 then 0.15
    else if recent_prices.dropLast.any (· = 0) then 0.15
    else if (simpleReturns recent_prices).length < 2 then 0.15
    else np_std (simpleReturns recent_prices) * Real.sqrt (24 * 365)

/-- enhanced_ai.py lines 144-149: keep the samples at or after the cutoff
time, falling back to the last `min(len, 24)` samples when fewer than 2
remain in the window. -/
def selectRecentSamples (hist : List PriceSample) (cutoff_time : ℤ) : List PriceSample :=
  let filtered := hist.filter (fun p => cutoff_time ≤ p.time)
  if filtered.length < 2 then pyTakeLast (min hist.length 24) hist else filtered

/-- enhanced_ai.py, `EnhancedVolatilityPredictor.calculate_historical_volatility`
(lines 135-178): select the recent samples, compute guarded returns, take
`np.std`, annualize by `sqrt(24*365)`, and clamp to [0.01, 2.0].
Fewer than 2 samples or returns gives the 0.15 fallback. -/
noncomputable def calculate_historical_volatility
    (hist : List PriceSample) (cutoff_time : ℤ) : ℝ :=
  if hist.length < 2 then 0.15
  else if (guardedReturns ((selectRecentSamples hist cutoff_time).map (·.price))).length < 2
    then 0.15
  else max 0.01
    (min (np_std (guardedReturns ((selectRecentSamples hist cutoff_time).map (·.price))) *
      Real.sqrt (24 * 365)) 2.0)

/-- Sample standard deviation with Bessel's correction (divisor n - 1), the
quantity the spec's words name for the volatility ("sample standard deviation
of returns"); written here for comparison against `np_std`. -/
noncomputable def specSampleStd (xs : List ℚ) : ℝ :=
  Real.sqrt (((xs.map (fun x => (x - listMean xs) ^ 2)).sum / ((xs.length : ℚ) - 1) : ℚ))

/-- enhanced_ai.py, `EnhancedVolatilityPredictor._store_price_data`
(lines 121-133): append the new sample, then keep only the last `max_history`
samples when the buffer exceeds that capacity (Python slice `[-max_history:]`).
infer.py lines 144-153 has the same structure with capacity 168. -/
def store_price_data (max_history : ℕ) (buf : List PriceSample) (price_data : PriceSample) :
    List PriceSample :=
  let b := buf ++ [price_data]
  if max_history < b.length then pyTakeLast max_history b else b

/-- enhanced_ai.py, `_generate_synthetic_features` loop body (lines 234-246),
recursing over the remaining count.  `noise i` is the i-th draw of
`np.random.normal(0, 1)`; the Python call with scale `volatility *
current_price * 0.01` is `noise i` times that scale.  The price is floored at
100, and each step emits the 5-feature vector of the source. -/
noncomputable def synthGo (noise : ℕ → ℝ) (sequence_length : ℕ) :
    ℕ → ℝ → ℕ → List (List ℝ)
  | _, _, 0 => []
  | i, current_price, Nat.succ fuel =>
    let price_change := noise i * (0.15 * current_price * 0.01)
    let next_price := max (current_price + price_change) 100
    [Real.log next_price, 0.001, (i : ℝ) / (sequence_length : ℝ),
     if 0 < i then price_change / next_price else 0, 0.15]
      :: synthGo noise sequence_length (i + 1) next_price fuel

/-- enhanced_ai.py, `EnhancedVolatilityPredictor._generate_synthetic_features`
(lines 223-249): a geometric-random-walk-like series seeded from base price
4000.0, producing `sequence_length` 5-feature vectors. -/
noncomputable def generate_synthetic_features (noise : ℕ → ℝ) (sequence_length : ℕ) :
    List (List ℝ) :=
  synthGo noise sequence_length 0 4000.0 sequence_length

/-- enhanced_ai.py, the real-data feature loop of `prepare_lstm_features`
(lines 189-210), recursing over the selected samples while tracking the index
and the previous price: [guarded log price, guarded confidence ratio, time
position, period return (0 at i = 0 or non-positive previous price),
broadcast recent volatility]. -/
noncomputable def realFeaturesGo (recent_volatility : ℝ) (sequence_length : ℕ) :
    ℕ → Option ℚ → List PriceSample → List (List ℝ)
  | _, _, [] => []
  | i, prev_price, pd :: rest =>
    [if 0 < pd.price then Real.log ((pd.price : ℚ) : ℝ) else 0,
     if 0 < pd.price then ((pd.confidence / pd.price : ℚ) : ℝ) else 0,
     (i : ℝ) / (sequence_length : ℝ),
     (match prev_price with
      | some pp => if 0 < pp then (((pd.price - pp) / pp : ℚ) : ℝ) else 0
      | none => 0),
     recent_volatility]
      :: realFeaturesGo recent_volatility sequence_length (i + 1) (some pd.price) rest

/-- enhanced_ai.py, `EnhancedVolatilityPredictor.prepare_lstm_features`
(lines 180-221): with fewer than `sequence_length` samples use the synthetic
fallback, otherwise build features from the last `sequence_length` samples,
broadcasting `calculate_historical_volatility` over a 6-hour window
(`cutoff6` is the corresponding cutoff instant). -/
noncomputable def prepare_lstm_features (hist : List PriceSample) (sequence_length : ℕ)
    (noise : ℕ → ℝ) (cutoff6 : ℤ) : List (List ℝ) :=
  if hist.length < sequence_length then generate_synthetic_features noise sequence_length
  else
    realFeaturesGo (calculate_historical_volatility hist cutoff6) sequence_length 0 none
      (pyTakeLast sequence_length hist)

/-- enhanced_ai.py, `EnhancedVolatilityPredictor.predict_volatility_lstm`
(lines 251-298): build the feature sequence, then: with a session, clamp the
model scalar to [0.005, 1.0] and tag "lstm_with_real_data"; without one,
return the historical calculation tagged "historical_calculation"; a backend
exception yields the 0.15 fallback tagged "error_fallback".  The source's
`input_features is None` branch (tag "fallback") is unreachable because
`prepare_lstm_features` always returns an array. -/
noncomputable def predict_volatility_lstm (session : Backend (List (List ℝ)))
    (hist : List PriceSample) (noise : ℕ → ℝ) (cutoff cutoff6 : ℤ) : ℝ × String :=
  let input_features := prepare_lstm_features hist 24 noise cutoff6
  match session with
  | .ok run => (max 0.005 (min ((run input_features : ℚ) : ℝ) 1.0), "lstm_with_real_data")
  | .absent => (calculate_historical_volatility hist cutoff, "historical_calculation")
  | .raising => (0.15, "error_fallback")

/-! ### Helper unfolding lemmas -/

theorem calculate_lambda_eq (v : ℚ) :
    calculate_lambda v = max 0.3 (min (1.8 - min (v / 0.5) 1 * (1.8 - 0.3)) 1.8) := rfl

theorem calculate_lambda_coefficient_eq (v b : ℚ) :
    calculate_lambda_coefficient v b =
      max 1.01 (min (1.0 + b + v * 2.0 + (min (v / 0.3) 2.0 - 1.0) * 0.5) 3.0) := rfl

/-! ### Claims -/

/-- C1 (counterexample): the claim states `calculate_lambda 0.15 = 1.5`, but
the source computes `1.8 - (0.15/0.5) * (1.8 - 0.3) = 1.35`. -/
theorem calculate_lambda_at_fallback_not_three_halves : calculate_lambda 0.15 ≠ 1.5 := by
  norm_num [calculate_lambda]

/-- C1 (amended): with no inference backend and an empty (or missing) input,
`predict_volatility` returns the constant fallback 0.15; the empty price
history also yields the 0.15 fallback volatility; and `calculate_lambda`
applied to 0.15 returns 1.35. -/
theorem fallback_prediction_and_lambda_value :
    infer_predict_volatility .absent none = 0.15 ∧
    infer_predict_volatility .absent (some []) = 0.15 ∧
    calculate_volatility_from_prices [] 24 = 0.15 ∧
    calculate_lambda 0.15 = 1.35 := by
  refine ⟨rfl, by norm_num [infer_predict_volatility], ?_, by norm_num [calculate_lambda]⟩
  norm_num [calculate_volatility_from_prices]

/-- C2: `calculate_lambda` maps every volatility into
[MIN_LAMBDA, MAX_LAMBDA] = [0.3, 1.8], and it is non-increasing. -/
theorem calculate_lambda_range_and_antitone :
    (∀ v : ℚ, 0.3 ≤ calculate_lambda v ∧ calculate_lambda v ≤ 1.8) ∧
    (∀ v₁ v₂ : ℚ, v₁ ≤ v₂ → calculate_lambda v₂ ≤ calculate_lambda v₁) := by
  constructor
  · intro v
    rw [calculate_lambda_eq]
    exact ⟨le_max_left _ _, max_le (by norm_num) (min_le_right _ _)⟩
  · intro v₁ v₂ h
    rw [calculate_lambda_eq, calculate_lambda_eq]
    have h1 : min (v₁ / 0.5) 1 ≤ min (v₂ / 0.5) 1 :=
      min_le_min ((div_le_div_iff_of_pos_right (by norm_num)).mpr h) le_rfl
    apply max_le_max le_rfl
    apply min_le_min _ le_rfl
    linarith [h1]

/-- C2 (witness): bounds at volatility 0 and antitonicity at 0 ≤ 1. -/
theorem calculate_lambda_range_and_antitone_witness :
    (0.3 ≤ calculate_lambda 0 ∧ calculate_lambda 0 ≤ 1.8) ∧
    calculate_lambda 1 ≤ calculate_lambda 0 :=
  ⟨calculate_lambda_range_and_antitone.1 0,
   calculate_lambda_range_and_antitone.2 0 1 (by decide)⟩

/-- C10: the enhanced lambda formula `calculate_lambda_coefficient` is
monotonically non-decreasing in volatility, for every base rate — the
opposite direction to `calculate_lambda`. -/
theorem calculate_lambda_coefficient_monotone :
    ∀ (base_rate v₁ v₂ : ℚ), 0 ≤ v₁ → v₁ ≤ v₂ →
      calculate_lambda_coefficient v₁ base_rate ≤ calculate_lambda_coefficient v₂ base_rate := by
  intro b v₁ v₂ _h0 h
  rw [calculate_lambda_coefficient_eq, calculate_lambda_coefficient_eq]
  have h1 : min (v₁ / 0.3) 2.0 ≤ min (v₂ / 0.3) 2.0 :=
    min_le_min ((div_le_div_iff_of_pos_right (by norm_num)).mpr h) le_rfl
  apply max_le_max le_rfl
  apply min_le_min _ le_rfl
  linarith [h1]

/-- C10 (witness): monotonicity at volatilities 0 ≤ 1 with base rate 0. -/
theorem calculate_lambda_coefficient_monotone_witness :
    calculate_lambda_coefficient 0 0 ≤ calculate_lambda_coefficient 1 0 :=
  calculate_lambda_coefficient_monotone 0 0 1 (by decide) (by decide)

/-- C4 (counterexample): for a configured backend returning the scalar 0.007,
infer.py's `predict_volatility` returns 0.01 — it clamps to [0.01, 1.0], not
to the volatility domain [0.005, 1.0] that the claim states. -/
theorem infer_predict_volatility_not_half_percent_clamp :
    infer_predict_volatility (.ok (fun _ => 0.007)) (some [0]) = 0.01 ∧
    max 0.005 (min (0.007 : ℚ) 1.0) = 0.007 ∧ (0.01 : ℚ) ≠ 0.007 := by
  refine ⟨?_, by norm_num, by norm_num⟩
  show max 0.01 (min (0.007 : ℚ) 1.0) = 0.01
  norm_num

/-- C4 (amended): with a configured backend, the enhanced predictor returns
the model scalar clamped to [0.005, 1.0], while infer.py's predictor returns
it clamped to [0.01, 1.0]; in both cases the returned value lies in
[0.005, 1.0], for every model output and every input state. -/
theorem model_output_clamping :
    ∀ (run : List (List ℝ) → ℚ) (run' : List ℚ → ℚ) (hist : List PriceSample)
      (noise : ℕ → ℝ) (c c6 : ℤ) (xs : List ℚ),
      (predict_volatility_lstm (.ok run) hist noise c c6).1 =
          max 0.005 (min ((run (prepare_lstm_features hist 24 noise c6) : ℚ) : ℝ) 1.0) ∧
      infer_predict_volatility (.ok run') (some xs) = max 0.01 (min (run' xs) 1.0) ∧
      0.005 ≤ (predict_volatility_lstm (.ok run) hist noise c c6).1 ∧
      (predict_volatility_lstm (.ok run) hist noise c c6).1 ≤ 1.0 ∧
      0.005 ≤ infer_predict_volatility (.ok run') (some xs) ∧
      infer_predict_volatility (.ok run') (some xs) ≤ 1.0 := by
  intro run run' hist noise c c6 xs
  refine ⟨rfl, rfl, le_max_left _ _, max_le (by norm_num) (min_le_right _ _), ?_, ?_⟩
  · show (0.005 : ℚ) ≤ max 0.01 (min (run' xs) 1.0)
    exact le_trans (by norm_num) (le_max_left _ _)
  · show max 0.01 (min (run' xs) 1.0) ≤ 1.0
    exact max_le (by norm_num) (min_le_right _ _)

/-- C8: `predict_volatility_lstm` never propagates a backend failure: in every
state it returns a numeric estimate with a method tag among
lstm_with_real_data, historical_calculation, fallback, error_fallback. -/
theorem predict_volatility_lstm_method_tags :
    ∀ (session : Backend (List (List ℝ))) (hist : List PriceSample)
      (noise : ℕ → ℝ) (c c6 : ℤ),
      (predict_volatility_lstm session hist noise c c6).2 ∈
        ["lstm_with_real_data", "historical_calculation", "fallback", "error_fallback"] := by
  intro session hist noise c c6
  cases session <;> simp [predict_volatility_lstm]

/-- C9 (code evaluated at the failing input): with an empty price history the
feature builder takes the synthetic fallback (history length 0 < 24), yet a
configured backend still tags the prediction "lstm_with_real_data" — the same
tag as for real market data, so the synthetic path is not distinguishable. -/
theorem synthetic_features_tagged_as_real_data :
    prepare_lstm_features [] 24 (fun _ => 0) 0 =
        generate_synthetic_features (fun _ => 0) 24 ∧
    (predict_volatility_lstm (.ok (fun _ => 0.1)) [] (fun _ => 0) 0 0).2 =
        "lstm_with_real_data" := by
  constructor
  · show (if ([] : List PriceSample).length < 24 then _ else _) = _
    norm_num
  · rfl

theorem store_price_data_eq (cap : ℕ) (buf : List PriceSample) (x : PriceSample) :
    store_price_data cap buf x =
      if cap < (buf ++ [x]).length then pyTakeLast cap (buf ++ [x]) else buf ++ [x] := rfl

/-- Folding `store_price_data` over a sequence of appends keeps exactly the
most recent `cap` samples, in insertion order (for a positive capacity). -/
theorem foldl_store_price_data (cap : ℕ) (hcap : 1 ≤ cap) :
    ∀ xs : List PriceSample,
      xs.foldl (store_price_data cap) [] = xs.drop (xs.length - cap) := by
  intro xs
  induction xs using List.reverseRecOn with
  | nil => simp
  | append_singleton ys x ih =>
    rw [List.foldl_append, List.foldl_cons, List.foldl_nil, ih, store_price_data_eq]
    simp only [List.length_append, List.length_cons, List.length_nil, Nat.zero_add]
    by_cases hlen : ys.length < cap
    · have h0 : ys.length - cap = 0 := by omega
      rw [h0, List.drop_zero, if_neg (by simp; omega)]
      have h1 : ys.length + 1 - cap = 0 := by omega
      rw [h1, List.drop_zero]
    · push_neg at hlen
      have hdlen : (ys.drop (ys.length - cap)).length = cap := by simp; omega
      rw [if_pos (by simp [hdlen])]
      unfold pyTakeLast
      rw [if_neg (by omega)]
      have hblen : ((ys.drop (ys.length - cap)) ++ [x]).length - cap = 1 := by
        simp [hdlen]
      rw [hblen,
        List.drop_append_of_le_length (by omega : 1 ≤ (ys.drop (ys.length - cap)).length),
        List.drop_drop,
        List.drop_append_of_le_length (by omega : ys.length + 1 - cap ≤ ys.length)]
      congr 2
      omega

/-- C6: the per-symbol price history buffer never holds more than `capacity`
samples, and after `capacity + k` appends it contains exactly the last
`capacity` appended samples in their original insertion order. -/
theorem price_history_buffer_bounded :
    ∀ (cap : ℕ), 1 ≤ cap → ∀ xs : List PriceSample,
      (xs.foldl (store_price_data cap) []).length ≤ cap ∧
      ∀ k : ℕ, xs.length = cap + k → xs.foldl (store_price_data cap) [] = xs.drop k := by
  intro cap hcap xs
  rw [foldl_store_price_data cap hcap xs]
  constructor
  · simp only [List.length_drop]; omega
  · intro k hk
    congr 1
    omega

/-- C6 (witness): capacity 2, three appends — the buffer keeps the last two
samples in order. -/
theorem price_history_buffer_bounded_witness :
    ((([⟨1,0,0⟩, ⟨2,0,0⟩, ⟨3,0,0⟩] : List PriceSample).foldl (store_price_data 2) []).length ≤ 2) ∧
    ([⟨1,0,0⟩, ⟨2,0,0⟩, ⟨3,0,0⟩] : List PriceSample).foldl (store_price_data 2) [] =
      ([⟨1,0,0⟩, ⟨2,0,0⟩, ⟨3,0,0⟩] : List PriceSample).drop 1 := by
  have h := price_history_buffer_bounded 2 (by decide) [⟨1,0,0⟩, ⟨2,0,0⟩, ⟨3,0,0⟩]
  exact ⟨h.1, h.2 1 rfl⟩

/-- Each step of the synthetic generator emits a 5-entry feature vector. -/
theorem synthGo_shape (noise : ℕ → ℝ) (sl : ℕ) :
    ∀ (fuel i : ℕ) (p : ℝ),
      (synthGo noise sl i p fuel).map List.length = List.replicate fuel 5 := by
  intro fuel
  induction fuel with
  | zero => intro i p; rfl
  | succ n ih =>
    intro i p
    rw [List.replicate_succ]
    simp only [synthGo, List.map_cons]
    rw [ih]
    rfl

/-- Each step of the real-data feature loop emits a 5-entry feature vector. -/
theorem realFeaturesGo_shape (rv : ℝ) (sl : ℕ) :
    ∀ (l : List PriceSample) (i : ℕ) (prev : Option ℚ),
      (realFeaturesGo rv sl i prev l).map List.length = List.replicate l.length 5 := by
  intro l
  induction l with
  | nil => intro i prev; rfl
  | cons pd rest ih =>
    intro i prev
    simp only [realFeaturesGo, List.map_cons, List.length_cons, List.replicate_succ]
    rw [ih]
    rfl

/-- C7: the feature builder always returns a feature sequence of shape
(sequence_length, feature_count) = (24, 5), whether built from real price
history or from the synthetic fallback, for every state of the history. -/
theorem prepare_lstm_features_shape :
    ∀ (hist : List PriceSample) (noise : ℕ → ℝ) (c6 : ℤ),
      (prepare_lstm_features hist 24 noise c6).map List.length = List.replicate 24 5 := by
  intro hist noise c6
  unfold prepare_lstm_features
  by_cases h : hist.length < 24
  · rw [if_pos h]
    exact synthGo_shape noise 24 24 0 4000.0
  · rw [if_neg h]
    rw [realFeaturesGo_shape]
    congr 1
    unfold pyTakeLast
    rw [if_neg (by omega)]
    simp only [List.length_drop]
    omega

/-- Guarded returns of a constant positive price series are all zero. -/
theorem guardedReturns_replicate (p : ℚ) (hp : 0 < p) (n : ℕ) :
    guardedReturns (List.replicate n p) = List.replicate (n-1) 0 := by
  unfold guardedReturns
  rw [List.tail_replicate, List.zip_replicate]
  have hmin : min (n-1) n = n - 1 := by omega
  rw [hmin]
  simp [List.filterMap_replicate, hp]

/-- The numpy standard deviation of an all-zero list is zero. -/
theorem np_std_replicate_zero (m : ℕ) : np_std (List.replicate m 0) = 0 := by
  have h : popVariance (List.replicate m 0) = 0 := by simp [popVariance, listMean]
  simp [np_std, h]

/-- C3 (counterexample): infer.py's `calculate_volatility_from_prices` applied
to a constant price series returns exactly 0, which lies below the floor 0.01
of the claimed clamping interval — this variant never clamps. -/
theorem calculate_volatility_from_prices_const_is_zero :
    calculate_volatility_from_prices [⟨100,1,0⟩, ⟨100,1,1⟩, ⟨100,1,2⟩] 24 = 0 ∧
    (0 : ℝ) < 0.01 := by
  constructor
  · have hr : pyTakeLast 24 (([⟨100,1,0⟩, ⟨100,1,1⟩, ⟨100,1,2⟩] : List PriceSample).map (·.price)) =
        [100, 100, 100] := by
      simp [pyTakeLast]
    have hs : simpleReturns [100, 100, 100] = [0, 0] := by
      norm_num [simpleReturns]
    unfold calculate_volatility_from_prices
    rw [if_neg (by norm_num), hr, if_neg (by norm_num), if_neg (by norm_num), hs,
      if_neg (by norm_num)]
    have h00 : np_std [0, 0] = 0 := np_std_replicate_zero 2
    rw [h00, zero_mul]
  · norm_num

/-- C3 (amended): enhanced_ai.py's `calculate_historical_volatility` always
returns a value in [0.01, 2.0], and a constant positive price series yields
exactly the floor 0.01, never 0; infer.py's `calculate_volatility_from_prices`
returns the annualized value unclamped (see the counterexample). -/
theorem calculate_historical_volatility_bounds_and_floor :
    (∀ (hist : List PriceSample) (cutoff : ℤ),
        0.01 ≤ calculate_historical_volatility hist cutoff ∧
        calculate_historical_volatility hist cutoff ≤ 2.0) ∧
    (∀ p : ℚ, 0 < p → ∀ n : ℕ, 3 ≤ n →
        calculate_historical_volatility (List.replicate n ⟨p, 1, 0⟩) 0 = 0.01) := by
  constructor
  · intro hist cutoff
    unfold calculate_historical_volatility
    split_ifs with h1 h2
    · norm_num
    · norm_num
    · exact ⟨le_max_left _ _, max_le (by norm_num) (min_le_right _ _)⟩
  · intro p hp n hn
    have hsel : selectRecentSamples (List.replicate n ⟨p, 1, 0⟩) 0 = List.replicate n ⟨p, 1, 0⟩ := by
      unfold selectRecentSamples
      simp only [List.filter_replicate]
      norm_num
      intro h
      omega
    have hret : guardedReturns ((List.replicate n (⟨p, 1, 0⟩ : PriceSample)).map (·.price)) =
        List.replicate (n-1) 0 := by
      rw [List.map_replicate]
      exact guardedReturns_replicate p hp n
    unfold calculate_historical_volatility
    rw [hsel, hret, if_neg (by simp; omega), if_neg (by simp; omega)]
    rw [np_std_replicate_zero, zero_mul]
    norm_num

/-- C3 (witness): bounds at the empty history and the exact floor for the
constant series of three samples at price 100. -/
theorem calculate_historical_volatility_bounds_and_floor_witness :
    (0.01 ≤ calculate_historical_volatility [] 0 ∧
      calculate_historical_volatility [] 0 ≤ 2.0) ∧
    calculate_historical_volatility (List.replicate 3 ⟨100, 1, 0⟩) 0 = 0.01 :=
  ⟨calculate_historical_volatility_bounds_and_floor.1 [] 0,
   calculate_historical_volatility_bounds_and_floor.2 100 (by decide) 3 (by decide)⟩

/-- Expanding a sum of squared deviations about an arbitrary center. -/
theorem sum_map_sub_sq (c : ℚ) (xs : List ℚ) :
    (xs.map (fun x => (x - c)^2)).sum =
      (xs.map (fun x => x^2)).sum - 2*c*xs.sum + (xs.length : ℚ) * c^2 := by
  induction xs with
  | nil => simp
  | cons y ys ih =>
    simp only [List.map_cons, List.sum_cons, List.length_cons, Nat.cast_succ, ih]
    ring

/-- The population variance equals the computational form `E[x²] - E[x]²`. -/
theorem popVariance_eq_computational (xs : List ℚ) (h : xs ≠ []) :
    popVariance xs = (xs.map (fun x => x^2)).sum / xs.length - (listMean xs)^2 := by
  have hn : (xs.length : ℚ) ≠ 0 := by
    have h0 : xs.length ≠ 0 := Nat.pos_iff_ne_zero.mp (List.length_pos.mpr h)
    exact_mod_cast h0
  unfold popVariance listMean
  rw [sum_map_sub_sq]
  field_simp
  ring

/-- C5 (counterexample): for the price series [1, 2, 3] the code's
pre-annualization volatility `np.std(returns)` differs from the sample
standard deviation of the returns (numpy uses the population divisor n,
not Bessel's n-1). -/
theorem volatility_not_sample_std :
    np_std (guardedReturns [1, 2, 3]) ≠ specSampleStd (guardedReturns [1, 2, 3]) := by
  have hg : guardedReturns [1, 2, 3] = [1, 1/2] := by
    norm_num [guardedReturns, List.filterMap_cons]
  rw [hg]
  have h1 : popVariance [1, 1/2] = 1/16 := by norm_num [popVariance, listMean]
  have h2 : (([1, (1:ℚ)/2].map (fun x => (x - listMean [1, 1/2]) ^ 2)).sum /
      ((([1, (1:ℚ)/2].length : ℚ)) - 1)) = 1/8 := by
    norm_num [listMean]
  unfold np_std specSampleStd
  rw [h1, h2]
  intro heq
  have h16 : ((1/16 : ℚ) : ℝ) = 1/16 := by norm_num
  have h8 : ((1/8 : ℚ) : ℝ) = 1/8 := by norm_num
  rw [h16, h8] at heq
  have e1 : Real.sqrt (1/16) ^ 2 = (1/16 : ℝ) := Real.sq_sqrt (by norm_num)
  have e2 : Real.sqrt (1/8) ^ 2 = (1/8 : ℝ) := Real.sq_sqrt (by norm_num)
  rw [heq] at e1
  rw [e2] at e1
  norm_num at e1

/-- C5 (amended): for every price series with at least 2 computed returns,
the pre-annualization volatility equals the POPULATION standard deviation of
the simple returns (divisor n, numpy's ddof = 0), here via the computational
form `sqrt(E[r²] - E[r]²)`. -/
theorem volatility_is_population_std :
    ∀ prices : List ℚ, 2 ≤ (guardedReturns prices).length →
      np_std (guardedReturns prices) =
        Real.sqrt ((((guardedReturns prices).map (fun r => r^2)).sum /
          ((guardedReturns prices).length : ℚ) - (listMean (guardedReturns prices))^2 : ℚ)) := by
  intro prices h
  unfold np_std
  congr 1
  have hne : guardedReturns prices ≠ [] := by
    intro hnil
    rw [hnil] at h
    simp at h
  exact_mod_cast congrArg (fun q : ℚ => ((q : ℚ) : ℝ)) (popVariance_eq_computational _ hne)

/-- C5 (witness): the population-standard-deviation identity evaluated at the
concrete price series [1, 2, 3]. -/
theorem volatility_is_population_std_witness :
    np_std (guardedReturns [1, 2, 3]) =
      Real.sqrt ((((guardedReturns [1, 2, 3]).map (fun r => r^2)).sum /
        ((guardedReturns [1, 2, 3]).length : ℚ) - (listMean (guardedReturns [1, 2, 3]))^2 : ℚ)) :=
  volatility_is_population_std [1, 2, 3] (by decide)
